import Mathlib

/-! A shallow embedding of the `ngx-jwt-auth` client-side authentication library
(`src/auth.state.ts`, `src/auth.interceptor.ts`, `src/auth.service.ts`,
`src/auth.backend.ts`, `src/user-service/user.service.ts`), together with
theorems checking the library's specification against the code.

Modelling conventions:
* JavaScript `string | null` fields become `Option String`; `null`/`undefined`
  become `none`.
* RxJS `BehaviorSubject<X>` is modelled by the list of all values it has
  emitted so far (initial value first, most recent last); its `getValue()` is
  the last element of that list.  An `Observable` pipeline built from a
  `BehaviorSubject` by `map`/`distinctUntilChanged` is modelled by the
  corresponding list transformation, so "the current value observed by a
  subscriber" is the last element of the transformed list.
* Synchronously thrown `Error`s and observable error notifications are both
  modelled with `Except`: the distinct error messages of the source are
  mapped to the constructors of `AuthError` (the names follow the spec's
  error taxonomy, §7).
* User objects (type parameter `T` of the source, here `U`) are opaque
  application records.  JavaScript object records are always truthy, so the
  source's truthiness tests on users (`!this.user`, `user != null`) coincide
  with null-tests and are modelled as `Option` matches.
* The external ports (`AuthBackend`, `AuthUserService`) are records of pure
  `Except`-valued functions; an asynchronous observable result is modelled by
  the final value it delivers (`.ok` for next+complete, `.error` for error).
-/

/-- Splitting a character list around every character satisfying `p`, keeping
empty segments and yielding `[[]]` on the empty list.  With `p` testing for a
single separator character this is exactly JavaScript
`String.prototype.split(sep)` (JS `"".split(' ') == [""]`). -/
def jsSplitBy (p : Char → Bool) : List Char → List (List Char)
  | [] => [[]]
  | c :: cs =>
    if p c then [] :: jsSplitBy p cs
    else
      match jsSplitBy p cs with
      | [] => [[c]]
      | seg :: rest => (c :: seg) :: rest

/-- JavaScript `token.split(' ')` (auth.state.ts line 60) as a `String`
operation. -/
def jsSplitSpace (s : String) : List String :=
  (jsSplitBy (fun c => c = ' ') s.data).map String.mk

/-- The result of `jsSplitBy` is never the empty list, mirroring the fact
that JS `split` always returns at least one segment. -/
theorem jsSplitBy_ne_nil (p : Char → Bool) (cs : List Char) :
    jsSplitBy p cs ≠ [] := by
  cases cs with
  | nil => simp [jsSplitBy]
  | cons c cs =>
    by_cases h : p c
    · simp [jsSplitBy, h]
    · simp only [jsSplitBy, h]
      cases jsSplitBy p cs <;> simp

/-- The result of `jsSplitSpace` is never the empty list. -/
theorem jsSplitSpace_ne_nil (s : String) : jsSplitSpace s ≠ [] := by
  have h := jsSplitBy_ne_nil (fun c => c = ' ') s.data
  unfold jsSplitSpace
  cases hs : jsSplitBy (fun c => c = ' ') s.data with
  | nil => exact absurd hs h
  | cons a l => simp

/-- The Token Holder (`AuthState`, auth.state.ts).  The `BehaviorSubject`
`token` is initialised with `null`; only its current value matters for the
claims below, so it is kept as a single `Option String` cell. -/
structure AuthState where
  token : Option String
deriving Repr, DecidableEq

/-- The freshly constructed `AuthState`: `new BehaviorSubject<string>(null)`. -/
def AuthState.init : AuthState := { token := none }

/-- `AuthState.getToken` (auth.state.ts lines 50-52): returns the
`BehaviorSubject`'s current value. -/
def AuthState.getToken (st : AuthState) : Option String :=
  st.token

/-- `AuthState.setToken` (auth.state.ts lines 59-65):
`let parts = token.split(' '); if (parts.length > 0) { token = parts.pop(); this.token.next(token); }`.
`parts.pop()` returns the last segment. -/
def AuthState.setToken (st : AuthState) (token : String) : AuthState :=
  let parts := jsSplitSpace token
  if parts.length > 0 then { st with token := some (parts.getLastD token) }
  else st

/-- Modelled from the spec's words (§4.1, missing from the code, which splits
only on `' '`): "parses `raw` by splitting on whitespace and, if at least one
segment exists, taking the last segment as the effective token value". -/
def specSetTokenWhitespace (st : AuthState) (raw : String) : AuthState :=
  let parts := (jsSplitBy Char.isWhitespace raw.data).map String.mk
  if parts.length > 0 then { st with token := some (parts.getLastD raw) }
  else st

/-- An outgoing HTTP request, reduced to its header list (name, value).
Angular's immutable `HttpRequest.clone` is modelled by building a new value. -/
structure HttpRequest where
  headers : List (String × String)
deriving Repr, DecidableEq

/-- Angular `HttpHeaders.set` as performed by
`req.clone({ setHeaders: { Authorization: ... } })`: all existing values of
the named header are replaced by the single given value (appended if the
header was absent). -/
def HttpRequest.cloneSetHeader (req : HttpRequest) (name value : String) :
    HttpRequest :=
  { req with
    headers := req.headers.filter (fun h => h.1 ≠ name) ++ [(name, value)] }

/-- The request-decorating half of `AuthInterceptor.intercept`
(auth.interceptor.ts lines 24-32):
`let token = this.authState.getToken(); if (token) { req = req.clone({setHeaders: {Authorization: 'Bearer ' + token}}); }`.
The JS truthiness test `if (token)` is false exactly for `null` and `""`. -/
def AuthInterceptor.intercept (st : AuthState) (req : HttpRequest) :
    HttpRequest :=
  match AuthState.getToken st with
  | none => req
  | some t =>
    if t = "" then req
    else req.cloneSetHeader "Authorization" ("Bearer " ++ t)

/-- The error taxonomy of the spec (§7).  The source throws plain `Error`s
with distinct messages; each distinct message is mapped to one constructor,
and `upstream` carries an opaque error raised by an external port. -/
inductive AuthError (ε : Type) where
  /-- "AuthService: You have not registered the AuthBackend." -/
  | missingBackend
  /-- "AuthService.activate: UserProvider dependency required." -/
  | missingResolver
  /-- "AuthService.activate: Can not activate `null` user." -/
  | reactivation
  /-- "Required user, but none found." -/
  | missingUser
  /-- An error raised by the Credential Exchanger or the User Resolver. -/
  | upstream (e : ε)
deriving Repr, DecidableEq

/-- The Credential Exchanger port (`AuthBackend`, auth.backend.ts): three
abstract async operations, each modelled by the final outcome it delivers. -/
structure AuthBackend (U R E ε : Type) where
  deleteUserSession : Option U → Except ε Unit
  userFromCredentials : R → Except ε U
  createUserFromCredentials : R → Option E → Except ε U

/-- The User Resolver port (`AuthUserService`, user-service/user.service.ts):
`find` plus the `parseUser` normalization hook (identity by default in the
source, but overridable, hence an arbitrary function here). -/
structure AuthUserService (U ι ε : Type) where
  find : ι → Except ε U
  parseUser : U → Except ε U

/-- The constructor-injected dependencies of `AuthService`
(auth.service.ts lines 108-110): both ports are `@Optional()`. -/
structure AuthService (U R E ι ε : Type) where
  backend : Option (AuthBackend U R E ε)
  userProvider : Option (AuthUserService U ι ε)

/-- The mutable state owned by one `AuthService` instance together with its
injected `AuthState`:
* `state` — the Token Holder (`public state: AuthState`);
* `activated` — current value of `activated: BehaviorSubject<boolean>`,
  initialised `false`;
* `userEmissions` — full emission history of
  `currentUser: BehaviorSubject<T>`, initial value `null` first, most recent
  last.  `user$` is `currentUser.asObservable()`, so this list is also the
  value history seen by `user$` subscribers. -/
structure AuthServiceState (U : Type) where
  state : AuthState
  activated : Bool
  userEmissions : List (Option U)
deriving Repr, DecidableEq

/-- The state of a freshly constructed `AuthService` with a fresh
`AuthState`. -/
def AuthServiceState.init (U : Type) : AuthServiceState U :=
  { state := AuthState.init, activated := false, userEmissions := [none] }

namespace AuthService

variable {U R E ι ε : Type}

/-- The `user` getter (auth.service.ts lines 129-131):
`this.currentUser.getValue()`, i.e. the most recent emission of the
`BehaviorSubject`. -/
def user (s : AuthServiceState U) : Option U :=
  s.userEmissions.getLastD none

/-- `setUser` (auth.service.ts lines 251-255): `this.currentUser.next(user)`,
an unconditional publish. -/
def setUser (s : AuthServiceState U) (u : Option U) : AuthServiceState U :=
  { s with userEmissions := s.userEmissions ++ [u] }

/-- The `authenticated` getter (auth.service.ts lines 262-264):
`this.user != null`, recomputed from `user` on every read. -/
def authenticated (s : AuthServiceState U) : Bool :=
  (user s).isSome

/-- RxJS `distinctUntilChanged` on a list of emissions: drops each emission
equal to the one immediately before it. -/
def distinctUntilChanged [DecidableEq α] : List α → List α
  | [] => []
  | a :: rest => a :: go a rest
where
  /-- Helper carrying the previously forwarded value. -/
  go [DecidableEq α] : α → List α → List α
  | _, [] => []
  | prev, b :: rest => if b = prev then go prev rest else b :: go b rest

/-- The emission history of `authenticated$`
(auth.service.ts line 117: `this.user$.map((v) => v != null).distinctUntilChanged()`). -/
def authenticatedEmissions (s : AuthServiceState U) : List Bool :=
  distinctUntilChanged (s.userEmissions.map Option.isSome)

/-- The current value of `authenticated$` as observed by a subscriber: the
most recent emission (`false` had nothing been emitted — unreachable, since
the `BehaviorSubject` emits its initial value immediately). -/
def authenticatedLatest (s : AuthServiceState U) : Bool :=
  (authenticatedEmissions s).getLastD false

/-- `getUserOrFail` (auth.service.ts lines 161-166):
`if (!this.user) { throw new Error('Required user, but none found.'); } return this.user;`.
User objects are records, hence truthy, so `!this.user` holds exactly for
`null`. -/
def getUserOrFail (s : AuthServiceState U) : Except (AuthError ε) U :=
  match user s with
  | none => .error .missingUser
  | some u => .ok u

/-- The guarded protected method `userFromCredentials`
(auth.service.ts lines 314-320): throws `MissingBackendError` when no
backend was injected, otherwise delegates to the port. -/
def userFromCredentials (svc : AuthService U R E ι ε) (credentials : R) :
    Except (AuthError ε) U :=
  match svc.backend with
  | none => .error .missingBackend
  | some b => (b.userFromCredentials credentials).mapError AuthError.upstream

set_option linter.unusedVariables false in
/-- The guarded protected method `createUserFromCredentials`
(auth.service.ts lines 341-347).  Note the source forwards only
`credentials` to the port — `return this.backend.createUserFromCredentials(credentials);` —
so the port always receives `undefined` (`none`) for `extra`, whatever
`extra` the caller supplied. -/
def createUserFromCredentials (svc : AuthService U R E ι ε) (credentials : R)
    (extra : Option E) : Except (AuthError ε) U :=
  match svc.backend with
  | none => .error .missingBackend
  | some b =>
    (b.createUserFromCredentials credentials none).mapError AuthError.upstream

/-- The guarded protected method `deleteUserSession`
(auth.service.ts lines 300-306). -/
def deleteUserSession (svc : AuthService U R E ι ε) (u : Option U) :
    Except (AuthError ε) Unit :=
  match svc.backend with
  | none => .error .missingBackend
  | some b => (b.deleteUserSession u).mapError AuthError.upstream

/-- `parseUserObservable` (auth.service.ts lines 286-292): when a User
Resolver is injected, `observable.mergeMap((data) => this.userProvider.parseUser(data))`;
otherwise the observable is returned unchanged.  On `Except`, `mergeMap`
of a one-shot result is `bind`. -/
def parseUserObservable (svc : AuthService U R E ι ε)
    (r : Except (AuthError ε) U) : Except (AuthError ε) U :=
  match svc.userProvider with
  | none => r
  | some p => r.bind (fun u => (p.parseUser u).mapError AuthError.upstream)

/-- `attempt` (auth.service.ts lines 185-191):
`parseUserObservable(this.userFromCredentials(credentials)).do((user) => this.setUser(user))`.
Returns the delivered outcome together with the state after subscription;
the `do` side effect `setUser` runs only on a successful emission. -/
def attempt (svc : AuthService U R E ι ε) (s : AuthServiceState U)
    (credentials : R) : Except (AuthError ε) U × AuthServiceState U :=
  match parseUserObservable svc (userFromCredentials svc credentials) with
  | .ok u => (.ok u, setUser s (some u))
  | .error e => (.error e, s)

/-- `register` (auth.service.ts lines 200-206): same shape as `attempt`, but
through `createUserFromCredentials` with the caller-supplied `extra`. -/
def register (svc : AuthService U R E ι ε) (s : AuthServiceState U)
    (credentials : R) (extra : Option E) :
    Except (AuthError ε) U × AuthServiceState U :=
  match parseUserObservable svc (createUserFromCredentials svc credentials extra) with
  | .ok u => (.ok u, setUser s (some u))
  | .error e => (.error e, s)

/-- `logout` (auth.service.ts lines 173-177):
`this.deleteUserSession(this.user).do(() => this.setUser(null))`. -/
def logout (svc : AuthService U R E ι ε) (s : AuthServiceState U) :
    Except (AuthError ε) Unit × AuthServiceState U :=
  match deleteUserSession svc (user s) with
  | .ok _ => (.ok (), setUser s none)
  | .error e => (.error e, s)

/-- `activate` (auth.service.ts lines 215-244), translated line by line:

1. `if (token != null) { this.state.setToken(token); }` — the token is
   forwarded to the Token Holder before anything else;
2. `if (userId == null)`: when `activated` already holds, throw the
   reactivation error; otherwise `setUser(null)`, latch `activated` to
   `true` and return `Observable.of(null)`;
3. `else if (this.userProvider == null)` throw the missing-resolver error;
4. otherwise subscribe `userProvider.find(userId).do(user => { setUser(user); activated.next(true); }, () => activated.next(true))`:
   on success the user is stored and the latch set, on failure only the
   latch is set and the error reaches the subscriber. -/
def activate (svc : AuthService U R E ι ε) (s : AuthServiceState U)
    (userId : Option ι) (token : Option String) :
    Except (AuthError ε) (Option U) × AuthServiceState U :=
  let s1 :=
    match token with
    | some t => { s with state := AuthState.setToken s.state t }
    | none => s
  match userId with
  | none =>
    if s1.activated then (.error .reactivation, s1)
    else (.ok none, { setUser s1 none with activated := true })
  | some uid =>
    match svc.userProvider with
    | none => (.error .missingResolver, s1)
    | some p =>
      match p.find uid with
      | .ok u => (.ok (some u), { setUser s1 (some u) with activated := true })
      | .error e => (.error (.upstream e), { s1 with activated := true })

/-- What the inner observable built by `userRequired$`'s second `mergeMap`
(auth.service.ts lines 141-148) delivers for one observed user value:
`notified` says whether `this._userRequiredFails.next()` fired, and
`emissions` lists the `(delay in ms, value)` pairs delivered to the
subscriber — `Observable.of(user).delay(999999)` for a `null` user,
`Observable.of(user)` otherwise. -/
structure UserRequiredStep (U : Type) where
  notified : Bool
  emissions : List (Nat × Option U)
deriving Repr, DecidableEq

/-- The case split of `userRequired$`'s second `mergeMap`
(auth.service.ts lines 141-148): `if (user === null) { this._userRequiredFails.next(); return Observable.of(user).delay(999999); } return Observable.of(user);`. -/
def userRequiredStep (u : Option U) : UserRequiredStep U :=
  match u with
  | none => { notified := true, emissions := [(999999, none)] }
  | some x => { notified := false, emissions := [(0, some x)] }

/-- One consumer-facing state-mutating call on an `AuthService`, for
quantifying over all operation sequences. -/
inductive Op (U R E ι : Type) where
  | setUser (u : Option U)
  | setToken (t : String)
  | activate (userId : Option ι) (token : Option String)
  | attempt (credentials : R)
  | register (credentials : R) (extra : Option E)
  | logout
deriving Repr

/-- The state transition performed by one operation (results discarded). -/
def step (svc : AuthService U R E ι ε) (s : AuthServiceState U) :
    Op U R E ι → AuthServiceState U
  | .setUser u => setUser s u
  | .setToken t => { s with state := AuthState.setToken s.state t }
  | .activate uid tok => (activate svc s uid tok).2
  | .attempt c => (attempt svc s c).2
  | .register c e => (register svc s c e).2
  | .logout => (logout svc s).2

/-- Running a sequence of operations from a given state. -/
def run (svc : AuthService U R E ι ε) (s : AuthServiceState U)
    (ops : List (Op U R E ι)) : AuthServiceState U :=
  ops.foldl (step svc) s

end AuthService

/-- `getLastD` commutes with `map` when the default is mapped too. -/
theorem getLastD_map {α β : Type} (f : α → β) (l : List α) (d : α) :
    (l.map f).getLastD (f d) = f (l.getLastD d) := by
  induction l generalizing d with
  | nil => rfl
  | cons a t ih =>
    rw [List.map_cons, List.getLastD_cons, List.getLastD_cons]
    exact ih a

/-- The helper of `distinctUntilChanged` preserves the most recent value:
with the previously forwarded value as default, the last element survives
consecutive-duplicate removal. -/
theorem distinctUntilChanged_go_getLastD {α : Type} [DecidableEq α]
    (l : List α) (prev : α) :
    (AuthService.distinctUntilChanged.go prev l).getLastD prev =
      l.getLastD prev := by
  induction l generalizing prev with
  | nil => rfl
  | cons b t ih =>
    by_cases h : b = prev
    · subst h
      simp only [AuthService.distinctUntilChanged.go, if_pos rfl]
      rw [List.getLastD_cons]
      exact ih b
    · simp only [AuthService.distinctUntilChanged.go, if_neg h]
      rw [List.getLastD_cons, List.getLastD_cons]
      exact ih b

/-- The most recent emission of `authenticated$` always equals the
`authenticated` getter recomputed from the current user. -/
theorem authenticatedLatest_eq_authenticated {U : Type}
    (s : AuthServiceState U) :
    AuthService.authenticatedLatest s = AuthService.authenticated s := by
  unfold AuthService.authenticatedLatest AuthService.authenticatedEmissions
    AuthService.authenticated AuthService.user
  cases s.userEmissions with
  | nil => rfl
  | cons a t =>
    rw [List.map_cons]
    simp only [AuthService.distinctUntilChanged]
    rw [List.getLastD_cons, distinctUntilChanged_go_getLastD, getLastD_map,
      List.getLastD_cons]

/-- `setToken` always stores the last segment of the space-split of its
argument (the split is never empty, so the `parts.length > 0` guard always
passes). -/
theorem getToken_setToken (st : AuthState) (raw : String) :
    AuthState.getToken (AuthState.setToken st raw) =
      some ((jsSplitSpace raw).getLastD raw) := by
  simp only [AuthState.setToken, AuthState.getToken]
  have h := jsSplitSpace_ne_nil raw
  cases hs : jsSplitSpace raw with
  | nil => exact absurd hs h
  | cons a l => simp [hs]

/-- C1: evaluating `userRequired$` at the failing input.  When the observed
user is `null` the side-channel notification does fire, but the inner
observable is `Observable.of(user).delay(999999)`: it delivers the `null`
user to the subscriber 999999 ms later.  The claim (and the method's own
comment "This way the subscribers don't receive a null user nor an error")
says no value is ever delivered; the code delivers `null` after a finite
delay. -/
theorem userRequired_null_user_delivers_null_after_delay :
    AuthService.userRequiredStep (none : Option Nat) =
      { notified := true, emissions := [(999999, none)] } := rfl

/-- A Credential Exchanger whose `createUserFromCredentials` answers with the
`extra` argument it received, making visible what the service forwards to
the port. -/
def extraEchoBackend : AuthBackend (Option Nat) Unit Nat Unit where
  deleteUserSession := fun _ => .ok ()
  userFromCredentials := fun _ => .ok none
  createUserFromCredentials := fun _ extra => .ok extra

/-- An `AuthService` configured with `extraEchoBackend` and no User
Resolver. -/
def extraEchoService : AuthService (Option Nat) Unit Nat Unit Unit where
  backend := some extraEchoBackend
  userProvider := none

/-- C2: evaluating `register` at the failing input `register((), some 5)`.
The port would answer `some 5` had it been given the extra argument, but the
service's `createUserFromCredentials` forwards only the credentials
(auth.service.ts line 346), so the port receives `none` and `register`
returns `ok none` instead of `ok (some 5)`. -/
theorem register_drops_extra_argument :
    (AuthService.register extraEchoService (AuthServiceState.init (Option Nat))
        () (some 5)).1 = Except.ok none ∧
    extraEchoBackend.createUserFromCredentials () (some 5) =
      Except.ok (some 5) :=
  ⟨rfl, rfl⟩

/-- C3, counterexample to the claim as stated: `"Bearer\tabc"` contains
whitespace (a tab), so parsing "by splitting on whitespace and storing the
last segment" would store `"abc"` (as `specSetTokenWhitespace`, modelled
from the spec's words, does); the code's `split(' ')` splits only on the
space character and stores the whole string `"Bearer\tabc"` as-is. -/
theorem setToken_whitespace_counterexample :
    AuthState.getToken (AuthState.setToken AuthState.init "Bearer\tabc") =
      some "Bearer\tabc" ∧
    AuthState.getToken (specSetTokenWhitespace AuthState.init "Bearer\tabc") =
      some "abc" ∧
    AuthState.getToken (AuthState.setToken AuthState.init "Bearer\tabc") ≠
      AuthState.getToken (specSetTokenWhitespace AuthState.init "Bearer\tabc") :=
  ⟨by decide, by decide, by decide⟩

/-- C3, amended: `setToken` parses its raw string argument by splitting on
the space character `' '` (not on all whitespace) and storing the last
segment; a raw value with no space is stored as-is.  In particular, after
`setToken "Bearer abc123"`, `getToken` returns `"abc123"`, and after
`setToken "abc123"`, `getToken` returns `"abc123"`. -/
theorem setToken_space_parse (st : AuthState) (raw : String) :
    AuthState.getToken (AuthState.setToken st raw) =
      some ((jsSplitSpace raw).getLastD raw) ∧
    AuthState.getToken (AuthState.setToken AuthState.init "Bearer abc123") =
      some "abc123" ∧
    AuthState.getToken (AuthState.setToken AuthState.init "abc123") =
      some "abc123" :=
  ⟨getToken_setToken st raw, by decide, by decide⟩

/-- C4: starting from an unactivated state, `activate(null, null)` called
twice in succession: the first call emits `null` and succeeds, leaving the
latch `true` and the user `null`; the second call fails with the
reactivation error ("Can not activate `null` user"). -/
theorem activate_null_twice (U R E ι ε : Type) (svc : AuthService U R E ι ε)
    (s : AuthServiceState U) (h : s.activated = false) :
    (AuthService.activate svc s none none).1 = Except.ok none ∧
    (AuthService.activate svc s none none).2.activated = true ∧
    AuthService.user (AuthService.activate svc s none none).2 = none ∧
    (AuthService.activate svc (AuthService.activate svc s none none).2
        none none).1 = Except.error AuthError.reactivation := by
  simp [AuthService.activate, h, AuthService.user, AuthService.setUser]

/-- An `AuthService` constructed with neither port injected (both
`@Optional()` dependencies absent), at concrete types. -/
def noPortsService : AuthService Nat Unit Unit Unit Unit where
  backend := none
  userProvider := none

/-- Witness for C4 at a concrete unactivated state. -/
theorem activate_null_twice_witness :
    (AuthServiceState.init Nat).activated = false ∧
    ((AuthService.activate noPortsService (AuthServiceState.init Nat)
        none none).1 = Except.ok none ∧
      (AuthService.activate noPortsService (AuthServiceState.init Nat)
          none none).2.activated = true ∧
      AuthService.user (AuthService.activate noPortsService
          (AuthServiceState.init Nat) none none).2 = none ∧
      (AuthService.activate noPortsService
          (AuthService.activate noPortsService (AuthServiceState.init Nat)
            none none).2 none none).1 =
        Except.error AuthError.reactivation) :=
  ⟨rfl, activate_null_twice Nat Unit Unit Unit Unit noPortsService
    (AuthServiceState.init Nat) rfl⟩

/-- C5: `activate(userId, token)` with a non-null `userId` and a configured
User Resolver whose `find` fails: the latch is still set to `true`, no user
is stored (a previously-null user stays `null`), and the resolver's error is
surfaced to the caller of `activate`. -/
theorem activate_resolver_failure (U R E ι ε : Type)
    (svc : AuthService U R E ι ε) (p : AuthUserService U ι ε)
    (s : AuthServiceState U) (uid : ι) (tok : Option String) (e : ε)
    (hp : svc.userProvider = some p) (hf : p.find uid = Except.error e)
    (hu : AuthService.user s = none) :
    (AuthService.activate svc s (some uid) tok).1 =
      Except.error (AuthError.upstream e) ∧
    (AuthService.activate svc s (some uid) tok).2.activated = true ∧
    AuthService.user (AuthService.activate svc s (some uid) tok).2 = none := by
  cases tok <;>
    simp_all [AuthService.activate, AuthService.user]

/-- A User Resolver whose `find` always fails, at concrete types. -/
def failingResolver : AuthUserService Nat Unit Unit where
  find := fun _ => .error ()
  parseUser := fun u => .ok u

/-- An `AuthService` configured with `failingResolver` and no backend. -/
def failingResolverService : AuthService Nat Unit Unit Unit Unit where
  backend := none
  userProvider := some failingResolver

/-- Witness for C5 at a concrete state and resolver. -/
theorem activate_resolver_failure_witness :
    failingResolverService.userProvider = some failingResolver ∧
    failingResolver.find () = Except.error () ∧
    AuthService.user (AuthServiceState.init Nat) = none ∧
    ((AuthService.activate failingResolverService (AuthServiceState.init Nat)
        (some ()) (some "Bearer tok")).1 =
      Except.error (AuthError.upstream ()) ∧
      (AuthService.activate failingResolverService (AuthServiceState.init Nat)
          (some ()) (some "Bearer tok")).2.activated = true ∧
      AuthService.user (AuthService.activate failingResolverService
          (AuthServiceState.init Nat) (some ()) (some "Bearer tok")).2 =
        none) :=
  ⟨rfl, rfl, rfl,
    activate_resolver_failure Nat Unit Unit Unit Unit failingResolverService
      failingResolver (AuthServiceState.init Nat) () (some "Bearer tok") ()
      rfl rfl rfl⟩

/-- C6: with no Credential Exchanger configured, `attempt` and `logout` both
fail with the missing-backend error and leave the whole state — in
particular the current user — unchanged. -/
theorem attempt_logout_missing_backend (U R E ι ε : Type)
    (svc : AuthService U R E ι ε) (s : AuthServiceState U) (c : R)
    (h : svc.backend = none) :
    AuthService.attempt svc s c = (Except.error AuthError.missingBackend, s) ∧
    AuthService.logout svc s = (Except.error AuthError.missingBackend, s) ∧
    AuthService.user (AuthService.attempt svc s c).2 = AuthService.user s ∧
    AuthService.user (AuthService.logout svc s).2 = AuthService.user s := by
  cases hp : svc.userProvider <;>
    simp_all [AuthService.attempt, AuthService.logout,
      AuthService.userFromCredentials, AuthService.deleteUserSession,
      AuthService.parseUserObservable, Except.bind]

/-- Witness for C6 at a concrete state with no backend. -/
theorem attempt_logout_missing_backend_witness :
    noPortsService.backend = none ∧
    (AuthService.attempt noPortsService
        (AuthService.setUser (AuthServiceState.init Nat) (some 3)) () =
      (Except.error AuthError.missingBackend,
        AuthService.setUser (AuthServiceState.init Nat) (some 3)) ∧
      AuthService.logout noPortsService
          (AuthService.setUser (AuthServiceState.init Nat) (some 3)) =
        (Except.error AuthError.missingBackend,
          AuthService.setUser (AuthServiceState.init Nat) (some 3)) ∧
      AuthService.user (AuthService.attempt noPortsService
          (AuthService.setUser (AuthServiceState.init Nat) (some 3)) ()).2 =
        AuthService.user
          (AuthService.setUser (AuthServiceState.init Nat) (some 3)) ∧
      AuthService.user (AuthService.logout noPortsService
          (AuthService.setUser (AuthServiceState.init Nat) (some 3))).2 =
        AuthService.user
          (AuthService.setUser (AuthServiceState.init Nat) (some 3))) :=
  ⟨rfl, attempt_logout_missing_backend Nat Unit Unit Unit Unit noPortsService
    (AuthService.setUser (AuthServiceState.init Nat) (some 3)) () rfl⟩

/-- C7: `getUserOrFail` returns the current user exactly when it is non-null
and fails with the missing-user error exactly when the current user is
null. -/
theorem getUserOrFail_ok_or_missingUser (U ε : Type) (s : AuthServiceState U) :
    (∀ u : U, AuthService.user s = some u →
      @AuthService.getUserOrFail U ε s = Except.ok u) ∧
    (@AuthService.getUserOrFail U ε s = Except.error AuthError.missingUser ↔
      AuthService.user s = none) := by
  constructor
  · intro u hu
    simp [AuthService.getUserOrFail, hu]
  · cases h : AuthService.user s <;>
      simp [AuthService.getUserOrFail, h]

/-- Witness for C7: a state holding user `7` yields `ok 7`, and the initial
(null-user) state yields the missing-user error. -/
theorem getUserOrFail_ok_or_missingUser_witness :
    AuthService.user (AuthService.setUser (AuthServiceState.init Nat)
      (some 7)) = some 7 ∧
    @AuthService.getUserOrFail Nat Unit
      (AuthService.setUser (AuthServiceState.init Nat) (some 7)) =
      Except.ok 7 ∧
    @AuthService.getUserOrFail Nat Unit (AuthServiceState.init Nat) =
      Except.error AuthError.missingUser :=
  ⟨rfl,
    (getUserOrFail_ok_or_missingUser Nat Unit
      (AuthService.setUser (AuthServiceState.init Nat) (some 7))).1 7 rfl,
    (getUserOrFail_ok_or_missingUser Nat Unit (AuthServiceState.init Nat)).2.2
      rfl⟩

/-- C8: decorating a request with no (or empty) token held returns the
request unmodified; decorating with a non-empty token `t` returns a clone
whose sole `Authorization` header is `Bearer t`, whose other headers are
untouched, and which — for a request that carried no `Authorization` header —
has exactly the one header appended. -/
theorem intercept_adds_bearer_header (st : AuthState) (req : HttpRequest) :
    (AuthState.getToken st = none ∨ AuthState.getToken st = some "" →
      AuthInterceptor.intercept st req = req) ∧
    (∀ t : String, AuthState.getToken st = some t → t ≠ "" →
      ((AuthInterceptor.intercept st req).headers.filter
          (fun h => h.1 = "Authorization") =
        [("Authorization", "Bearer " ++ t)] ∧
      (AuthInterceptor.intercept st req).headers.filter
          (fun h => h.1 ≠ "Authorization") =
        req.headers.filter (fun h => h.1 ≠ "Authorization") ∧
      ((∀ hd ∈ req.headers, hd.1 ≠ "Authorization") →
        (AuthInterceptor.intercept st req).headers =
          req.headers ++ [("Authorization", "Bearer " ++ t)]))) := by
  constructor
  · rintro (h | h) <;> simp [AuthInterceptor.intercept, h]
  · intro t ht hne
    refine ⟨?_, ?_, ?_⟩
    · simp [AuthInterceptor.intercept, ht, hne, HttpRequest.cloneSetHeader,
        List.filter_append, List.filter_filter]
    · simp [AuthInterceptor.intercept, ht, hne, HttpRequest.cloneSetHeader,
        List.filter_append, List.filter_filter]
    · intro hnone
      have hfilter : req.headers.filter (fun hd => hd.1 ≠ "Authorization") =
          req.headers :=
        List.filter_eq_self.mpr (fun a ha => by simpa using hnone a ha)
      simp [AuthInterceptor.intercept, ht, hne, HttpRequest.cloneSetHeader,
        hfilter]
      exact fun a b hab => hnone (a, b) hab

/-- Witness for C8: a held token `"abc123"` and a request with one unrelated
header: the decorated request is the original with exactly the
`Authorization: Bearer abc123` header appended. -/
theorem intercept_adds_bearer_header_witness :
    AuthState.getToken { token := some "abc123" } = some "abc123" ∧
    ("abc123" : String) ≠ "" ∧
    (AuthInterceptor.intercept { token := some "abc123" }
        { headers := [("Accept", "json")] }).headers =
      [("Accept", "json")] ++ [("Authorization", "Bearer abc123")] :=
  ⟨rfl, by decide,
    ((intercept_adds_bearer_header { token := some "abc123" }
          { headers := [("Accept", "json")] }).2 "abc123" rfl
        (by decide)).2.2 (by decide)⟩

/-- C9: after every sequence of state-mutating operations, the
`authenticated` getter and the most recent emission of `authenticated$` both
equal "current user is non-null".  `authenticated` is a derived read and
`authenticated$` a derived stream (`user$.map((v) => v != null).distinctUntilChanged()`);
no operation stores an authentication flag, so neither can be stale with
respect to the last `setUser`. -/
theorem authenticated_always_derived (U R E ι ε : Type)
    (svc : AuthService U R E ι ε) (ops : List (AuthService.Op U R E ι)) :
    AuthService.authenticated
        (AuthService.run svc (AuthServiceState.init U) ops) =
      (AuthService.user
        (AuthService.run svc (AuthServiceState.init U) ops)).isSome ∧
    AuthService.authenticatedLatest
        (AuthService.run svc (AuthServiceState.init U) ops) =
      (AuthService.user
        (AuthService.run svc (AuthServiceState.init U) ops)).isSome :=
  ⟨rfl,
    authenticatedLatest_eq_authenticated
      (AuthService.run svc (AuthServiceState.init U) ops)⟩

/-- C10: `activate` forwards a supplied token to `setToken` before any
precondition check, so a call that then fails with the reactivation error
(null `userId` when already activated) or the missing-resolver error
(non-null `userId`, no User Resolver) has nonetheless replaced the Token
Holder's token with the parsed token: activation failure is not atomic with
respect to the token. -/
theorem activate_failure_still_sets_token (U R E ι ε : Type)
    (svc : AuthService U R E ι ε) (s : AuthServiceState U) (uid : Option ι)
    (t : String)
    (h : (uid = none ∧ s.activated = true) ∨
      (uid ≠ none ∧ svc.userProvider = none)) :
    ((AuthService.activate svc s uid (some t)).1 =
        Except.error AuthError.reactivation ∨
      (AuthService.activate svc s uid (some t)).1 =
        Except.error AuthError.missingResolver) ∧
    (AuthService.activate svc s uid (some t)).2.state =
      AuthState.setToken s.state t ∧
    AuthState.getToken (AuthService.activate svc s uid (some t)).2.state =
      some ((jsSplitSpace t).getLastD t) := by
  rcases h with ⟨hu, ha⟩ | ⟨hu, hp⟩
  · subst hu
    simp [AuthService.activate, ha, getToken_setToken]
  · cases uid with
    | none => exact absurd rfl hu
    | some i => simp [AuthService.activate, hp, getToken_setToken]

/-- Witness for C10: `activate(some (), some "Bearer tok2")` on a service
with no User Resolver fails, yet the Token Holder now holds the parsed
token. -/
theorem activate_failure_still_sets_token_witness :
    ((some () : Option Unit) ≠ none ∧ noPortsService.userProvider = none) ∧
    (((AuthService.activate noPortsService (AuthServiceState.init Nat)
          (some ()) (some "Bearer tok2")).1 =
        Except.error AuthError.reactivation ∨
      (AuthService.activate noPortsService (AuthServiceState.init Nat)
          (some ()) (some "Bearer tok2")).1 =
        Except.error AuthError.missingResolver) ∧
      (AuthService.activate noPortsService (AuthServiceState.init Nat)
          (some ()) (some "Bearer tok2")).2.state =
        AuthState.setToken (AuthServiceState.init Nat).state "Bearer tok2" ∧
      AuthState.getToken (AuthService.activate noPortsService
          (AuthServiceState.init Nat) (some ()) (some "Bearer tok2")).2.state =
        some ((jsSplitSpace "Bearer tok2").getLastD "Bearer tok2")) :=
  ⟨⟨by decide, rfl⟩,
    activate_failure_still_sets_token Nat Unit Unit Unit Unit noPortsService
      (AuthServiceState.init Nat) (some ()) "Bearer tok2"
      (Or.inr ⟨by decide, rfl⟩)⟩
